import Mathlib

/-!
Shallow embedding of `src/scripts/dataset_download/specific_files_download.py`
(the active, non-commented second half of the file).

The script reads patient identifiers from a CSV (pandas, one column
`subject_id` converted to strings and collected into a Python `set`),
filters the identifiers with `str.isdigit`, and for each one runs an
external `wget` process inside a `ThreadPoolExecutor` whose `max_workers`
is `min(min_workers, len(patient_ids))`.

Conventions of the embedding:
- Python strings are Lean `String` (a structure over `List Char`).
- Python `set(...)` built from a list is modelled as `List.dedup`
  (the claims only concern membership and duplicate-freedom, not order).
- `pathlib.Path.resolve()` is an external filesystem operation; the
  embedding takes the already-resolved path strings as inputs.
- `subprocess.run(command, check=True)` either returns normally or raises
  `CalledProcessError` (non-zero exit) / `FileNotFoundError` (missing
  executable); this is modelled by `subprocessRun` over an abstract
  outcome of the external process.
- `print(...)` calls are modelled by accumulating the printed strings.
-/

/-- Python `s[:n]` on a string: the first `n` characters (never fails,
returns the whole string when it is shorter than `n`). -/
def pySlice (s : String) (n : Nat) : String :=
  String.mk (s.data.take n)

/-- Python `str.isdigit` (for the ASCII strings this script handles):
`True` iff the string is nonempty and every character is a decimal digit. -/
def pyIsdigit (s : String) : Bool :=
  !s.data.isEmpty && s.data.all Char.isDigit

/-- The fixed base URL in the f-string at line 95 of the script. -/
def baseUrl : String := "https://physionet.org/files/mimic-cxr-jpg/2.0.0/files/"

/-- `folder = f"p{patient_id[:2]}"` (line 91). -/
def folderOf (patient_id : String) : String :=
  "p" ++ pySlice patient_id 2

/-- `patient_folder = f"p{patient_id}"` (line 92). -/
def patientFolderOf (patient_id : String) : String :=
  "p" ++ patient_id

/-- `url = f"https://physionet.org/files/mimic-cxr-jpg/2.0.0/files/{folder}/{patient_folder}/"`. -/
def urlOf (patient_id : String) : String :=
  baseUrl ++ folderOf patient_id ++ "/" ++ patientFolderOf patient_id ++ "/"

/-- Outcome of the external `wget` process invoked by `subprocess.run`. -/
inductive RunOutcome where
  | exitCode (code : Int)
  | missingExecutable
deriving DecidableEq

/-- Python exceptions that `subprocess.run(command, check=True)` can raise. -/
inductive PyExc where
  | calledProcessError (returncode : Int)
  | fileNotFoundError
deriving DecidableEq

/-- Text of the exception as interpolated by `f"...: {e}"`. -/
def excText (e : PyExc) : String :=
  match e with
  | .calledProcessError rc =>
      "Command returned non-zero exit status " ++ toString rc ++ "."
  | .fileNotFoundError => "No such file or directory"

/-- `subprocess.run(command, check=True)`: returns normally on exit code 0,
raises `CalledProcessError` on a non-zero exit code, raises
`FileNotFoundError` when the executable is missing. -/
def subprocessRun (oc : RunOutcome) : Except PyExc Unit :=
  match oc with
  | .exitCode c => if c = 0 then .ok () else .error (.calledProcessError c)
  | .missingExecutable => .error .fileNotFoundError

/-- Result of one call of `download_patient_data`: whether the function
returned normally (as opposed to propagating an exception), the strings it
printed, and the command vector it handed to `subprocess.run`. -/
structure TaskResult where
  returnedNormally : Bool
  printed : List String
  command : List String
deriving DecidableEq

/-- `download_patient_data(patient_id, wget_path, download_directory,
username, password)` (lines 77-112 of the script): derives the folder and
URL, builds the wget command, runs it, and catches every `Exception`,
printing a message that names the patient. `wget_path` and
`download_directory` are the resolved path strings (`str(p.resolve())`);
`oc` is the outcome of the external process. -/
def download_patient_data (wget_path download_directory username password
    patient_id : String) (oc : RunOutcome) : TaskResult :=
  let url := urlOf patient_id
  let dlMsg := "Downloading data for patient " ++ patient_id ++ " from " ++ url
  let command := [wget_path, "-r", "-N", "-c", "-np", "-P", download_directory,
    "--user", username, "--password", password, url]
  match subprocessRun oc with
  | .ok _ =>
      { returnedNormally := true, printed := [dlMsg], command := command }
  | .error e =>
      { returnedNormally := true
        printed := [dlMsg,
          "An error occurred while downloading for patient " ++ patient_id
            ++ ": " ++ excText e]
        command := command }

/-- The `await asyncio.gather(*tasks)` in `download_all_data`: one task per
dispatched identifier, each running `download_patient_data` to completion;
`oc` maps each identifier to the outcome of its external process. -/
def gatherTasks (wget_path download_directory username password : String)
    (ids : List String) (oc : String → RunOutcome) : List TaskResult :=
  ids.map fun pid =>
    download_patient_data wget_path download_directory username password pid (oc pid)

/-- Result of reading the CSV: `pd.read_csv` plus the `subject_id` column
access either raises (bad path, missing column) or yields a list of
strings (`df['subject_id'].astype(str).tolist()`). -/
inductive CsvResult where
  | failure (err : String)
  | success (ids : List String)

/-- Result of one call of `download_all_data`: the identifiers for which a
download task was dispatched, the error message printed by the outer
`except` clause (if any), and whether the function returned normally. -/
structure RunResult where
  dispatched : List String
  printedError : Option String
  returnedNormally : Bool

/-- `max_workers=min(min_workers, len(patient_ids))` (line 136):
the concurrency bound passed to `ThreadPoolExecutor`, where
`patient_ids` is the deduplicated (but not yet digit-filtered) set. -/
def poolBound (ids : List String) (min_workers : Int) : Int :=
  min min_workers (ids.dedup.length : Int)

/-- The number of tasks submitted to the executor: one per unique
identifier that passes `isdigit` (line 138). -/
def numTasks (ids : List String) : Int :=
  ((ids.dedup.filter pyIsdigit).length : Int)

/-- The number of worker threads a `ThreadPoolExecutor` actually starts:
it spawns threads lazily, at most one per submitted task and never more
than `max_workers` (external-library behaviour, per its documentation). -/
def workersUsed (bound tasks : Int) : Int :=
  min bound tasks

/-- `download_all_data(mimic_iv_csv_path, ..., min_workers)`
(lines 114-142): reads the CSV (outcome `csv`), builds the set of
identifier strings, opens a `ThreadPoolExecutor` with
`max_workers=min(min_workers, len(patient_ids))` — which raises
`ValueError` when that bound is not positive — dispatches one task per
identifier passing `isdigit`, and catches any `Exception` in an outer
handler that prints a message. -/
def download_all_data (csv : CsvResult) (min_workers : Int) : RunResult :=
  match csv with
  | .failure e =>
      { dispatched := []
        printedError := some ("An error occurred: " ++ e)
        returnedNormally := true }
  | .success ids =>
      let patient_ids := ids.dedup
      if poolBound ids min_workers ≤ 0 then
        { dispatched := []
          printedError :=
            some "An error occurred: max_workers must be greater than 0"
          returnedNormally := true }
      else
        { dispatched := patient_ids.filter pyIsdigit
          printedError := none
          returnedNormally := true }

/-- `parser.add_argument("--min_workers", type=int, default=20, ...)`
(line 153): the value of the flag, or 20 when the flag is omitted. -/
def minWorkersArg (flag : Option Int) : Int :=
  flag.getD 20

/-- C1: for every identifier, the folder is "p" followed by the first two
characters, the patient folder is "p" followed by the whole identifier,
and the URL is the fixed base followed by folder, "/", patient folder,
"/"; id "10000032" yields folder "p10" and patient folder "p10000032".
The construction is a function of the identifier alone, hence
deterministic. -/
theorem C1_url_construction (patient_id : String) :
    folderOf patient_id = "p" ++ pySlice patient_id 2 ∧
    patientFolderOf patient_id = "p" ++ patient_id ∧
    urlOf patient_id =
      baseUrl ++ folderOf patient_id ++ "/" ++ patientFolderOf patient_id ++ "/" ∧
    folderOf "10000032" = "p10" ∧
    patientFolderOf "10000032" = "p10000032" ∧
    urlOf "10000032" =
      "https://physionet.org/files/mimic-cxr-jpg/2.0.0/files/p10/p10000032/" :=
  ⟨rfl, rfl, rfl, by decide, by decide, by decide⟩

/-- C2: for every input list of identifier strings from the CSV, the
collection of identifiers dispatched to download tasks has no duplicate
strings and no non-numeric string (every dispatched identifier passes
`isdigit`); the non-numeric values are dropped without any error message
(whenever the pool is constructed at all, the run prints no error). -/
theorem C2_dispatched_nodup_numeric (ids : List String) (mw : Int) :
    ((download_all_data (.success ids) mw).dispatched).Nodup ∧
    (∀ x ∈ (download_all_data (.success ids) mw).dispatched,
      pyIsdigit x = true) ∧
    (0 < poolBound ids mw →
      (download_all_data (.success ids) mw).printedError = none) := by
  simp only [download_all_data]
  split
  · refine ⟨List.nodup_nil, by simp, fun h => ?_⟩
    omega
  · refine ⟨(ids.nodup_dedup).filter _, fun x hx => ?_, fun _ => rfl⟩
    exact (List.mem_filter.mp hx).2

/-- Witness for C2 at a concrete input with a duplicate and a non-numeric
entry. -/
theorem C2_dispatched_nodup_numeric_witness :
    ((download_all_data (.success ["7", "7", "abc"]) 20).dispatched).Nodup ∧
    (∀ x ∈ (download_all_data (.success ["7", "7", "abc"]) 20).dispatched,
      pyIsdigit x = true) ∧
    (download_all_data (.success ["7", "7", "abc"]) 20).printedError = none := by
  obtain ⟨h1, h2, h3⟩ := C2_dispatched_nodup_numeric ["7", "7", "abc"] 20
  exact ⟨h1, h2, h3 (by decide)⟩

/-- C3: the concurrency bound passed to the worker pool is
min(configured worker count, number of identifiers), and the number of
worker threads actually started never exceeds min(configured worker
count, number of unique valid numeric identifiers). -/
theorem C3_worker_bound (ids : List String) (mw : Int) :
    poolBound ids mw = min mw (ids.dedup.length : Int) ∧
    workersUsed (poolBound ids mw) (numTasks ids) ≤ min mw (numTasks ids) :=
  ⟨rfl, le_min ((min_le_left _ _).trans (min_le_left _ _)) (min_le_right _ _)⟩

/-- C4: a failing download task (non-zero exit code or missing
executable) is caught inside `download_patient_data`: the function still
returns normally and prints a message naming the identifier; and across a
whole gather, every task produces a completed, normally-returned result,
so one failure does not abort or prevent any sibling task. -/
theorem C4_per_task_failure (wget_path download_directory username password
    patient_id : String) (oc : RunOutcome) (ids : List String)
    (ocs : String → RunOutcome) (h : oc ≠ RunOutcome.exitCode 0) :
    (download_patient_data wget_path download_directory username password
      patient_id oc).returnedNormally = true ∧
    (∃ pre post,
      pre ++ patient_id ++ post ∈
        (download_patient_data wget_path download_directory username password
          patient_id oc).printed) ∧
    (gatherTasks wget_path download_directory username password ids ocs).length
      = ids.length ∧
    (∀ r ∈ gatherTasks wget_path download_directory username password ids ocs,
      r.returnedNormally = true) := by
  have hrun : ∃ e, subprocessRun oc = .error e := by
    cases oc with
    | exitCode c =>
        have hc : c ≠ 0 := fun hc0 => h (by rw [hc0])
        exact ⟨PyExc.calledProcessError c, by simp [subprocessRun, hc]⟩
    | missingExecutable => exact ⟨_, rfl⟩
  obtain ⟨e, he⟩ := hrun
  refine ⟨?_, ?_, List.length_map _ _, ?_⟩
  · simp [download_patient_data, he]
  · refine ⟨"An error occurred while downloading for patient ",
      ": " ++ excText e, ?_⟩
    simp only [download_patient_data, he, String.append_assoc]
    exact List.mem_cons_of_mem _ (List.mem_cons_self _ _)
  · intro r hr
    obtain ⟨pid, _, rfl⟩ := List.mem_map.mp hr
    cases hrun2 : subprocessRun (ocs pid) with
    | ok u => simp [download_patient_data, hrun2]
    | error e2 => simp [download_patient_data, hrun2]

/-- Witness for C4: a concrete failing task (missing executable) among a
batch of three identifiers. -/
theorem C4_per_task_failure_witness :
    (download_patient_data "/usr/bin/wget" "/data" "alice" "pw"
      "10000032" RunOutcome.missingExecutable).returnedNormally = true ∧
    (∃ pre post,
      pre ++ "10000032" ++ post ∈
        (download_patient_data "/usr/bin/wget" "/data" "alice" "pw"
          "10000032" RunOutcome.missingExecutable).printed) ∧
    (gatherTasks "/usr/bin/wget" "/data" "alice" "pw"
      ["10000032", "10000764", "10001217"]
      (fun _ => RunOutcome.missingExecutable)).length = 3 ∧
    (∀ r ∈ gatherTasks "/usr/bin/wget" "/data" "alice" "pw"
      ["10000032", "10000764", "10001217"]
      (fun _ => RunOutcome.missingExecutable),
      r.returnedNormally = true) :=
  C4_per_task_failure "/usr/bin/wget" "/data" "alice" "pw" "10000032"
    RunOutcome.missingExecutable ["10000032", "10000764", "10001217"]
    (fun _ => RunOutcome.missingExecutable) (by decide)

/-- C5: when reading or parsing the CSV fails, the whole run is aborted
with a printed message: no download task is dispatched, the outer handler
prints the error, and no partial recovery is attempted (the function just
returns). -/
theorem C5_csv_error_aborts (e : String) (mw : Int) :
    (download_all_data (.failure e) mw).dispatched = [] ∧
    (download_all_data (.failure e) mw).printedError =
      some ("An error occurred: " ++ e) ∧
    (download_all_data (.failure e) mw).returnedNormally = true :=
  ⟨rfl, rfl, rfl⟩

/-- C6: the argument vector handed to the external utility is exactly the
resolved utility path, the flags "-r" "-N" "-c" "-np" "-P", the resolved
output directory, "--user" with the username, "--password" with the
password, and the derived URL. -/
theorem C6_command_vector (wget_path download_directory username password
    patient_id : String) (oc : RunOutcome) :
    (download_patient_data wget_path download_directory username password
      patient_id oc).command =
    [wget_path, "-r", "-N", "-c", "-np", "-P", download_directory,
      "--user", username, "--password", password, urlOf patient_id] := by
  cases h : subprocessRun oc <;> simp [download_patient_data, h]

/-- C7: the username and password supplied by the caller appear in the
constructed command vector exactly as given (at the positions right after
"--user" and "--password"), for every task. -/
theorem C7_credentials_unmodified (wget_path download_directory username
    password patient_id : String) (oc : RunOutcome) :
    (download_patient_data wget_path download_directory username password
      patient_id oc).command[8]? = some username ∧
    (download_patient_data wget_path download_directory username password
      patient_id oc).command[7]? = some "--user" ∧
    (download_patient_data wget_path download_directory username password
      patient_id oc).command[10]? = some password ∧
    (download_patient_data wget_path download_directory username password
      patient_id oc).command[9]? = some "--password" := by
  cases h : subprocessRun oc <;> simp [download_patient_data, h]

/-- C8: when the --min_workers flag is omitted, the worker-count parameter
used by the run is 20 (the argparse default). -/
theorem C8_default_min_workers : minWorkersArg none = 20 := rfl

/-- C9: when the deduplicated identifier set is empty, or
min(min_workers, identifier count) is not positive, the pool constructor
raises and the outer handler catches it: an error message is printed, no
download task is dispatched, and the function still returns normally. -/
theorem C9_nonpositive_bound_caught (ids : List String) (mw : Int)
    (h : ids.dedup = [] ∨ min mw (ids.dedup.length : Int) ≤ 0) :
    (download_all_data (.success ids) mw).dispatched = [] ∧
    ((download_all_data (.success ids) mw).printedError).isSome = true ∧
    (download_all_data (.success ids) mw).returnedNormally = true := by
  have hb : poolBound ids mw ≤ 0 := by
    rcases h with h | h
    · simp only [poolBound, h, List.length_nil, Nat.cast_zero]
      exact min_le_right _ _
    · exact h
  simp [download_all_data, if_pos hb]

/-- Witness for C9: an empty identifier list with the default worker
count. -/
theorem C9_nonpositive_bound_caught_witness :
    (download_all_data (.success ([] : List String)) 20).dispatched = [] ∧
    ((download_all_data (.success ([] : List String)) 20).printedError).isSome
      = true ∧
    (download_all_data (.success ([] : List String)) 20).returnedNormally
      = true :=
  C9_nonpositive_bound_caught [] 20 (Or.inl (by decide))

/-- C10: a numeric identifier shorter than two characters does not make
the slice fail: the derived folder is "p" followed by the entire
identifier, and (whenever the run dispatches at all, i.e. the worker
count is positive) the identifier is still dispatched like any other. -/
theorem C10_short_id (patient_id : String) (mw : Int)
    (hlen : patient_id.data.length < 2) (hdig : pyIsdigit patient_id = true) :
    folderOf patient_id = "p" ++ patient_id ∧
    (1 ≤ mw →
      (download_all_data (.success [patient_id]) mw).dispatched
        = [patient_id]) := by
  constructor
  · unfold folderOf pySlice
    congr 1
    exact String.ext (List.take_of_length_le (Nat.le_of_lt hlen))
  · intro hmw
    have hded : ([patient_id] : List String).dedup = [patient_id] := by
      rw [List.dedup_cons_of_not_mem (List.not_mem_nil patient_id),
        List.dedup_nil]
    have hb : ¬ poolBound [patient_id] mw ≤ 0 := by
      simp only [poolBound, hded, List.length_singleton, Nat.cast_one]
      exact not_le.mpr (lt_min (by omega) one_pos)
    simp only [download_all_data, if_neg hb, hded]
    simp [List.filter_cons, hdig]

/-- Witness for C10: the one-character identifier "7" with the default
worker count. -/
theorem C10_short_id_witness :
    folderOf "7" = "p" ++ "7" ∧
    (download_all_data (.success ["7"]) 20).dispatched = ["7"] := by
  obtain ⟨h1, h2⟩ := C10_short_id "7" 20 (by decide) (by decide)
  exact ⟨h1, h2 (by decide)⟩
